import Mathlib

/-!
Verification development for the bzr-portal repository.

The repository consists of three Python template-generator scripts
(`create_template.py`, `backend/scripts/generate-docx-template.py`,
`backend/scripts/generate-template.py`) that build a static DOCX document
body out of paragraphs, headings, tables and page breaks, save it once to a
hard-coded path, and print a short console report; and one ad-hoc script
(`backend/merge_all_results.py`) that loads a JSON file, counts position
records and prints a report.

The embedding below represents document bodies as lists of items whose
runs are split into static-text tokens, double-brace placeholder tokens
and loop-open/loop-close marker tokens; scripts are modelled as functions
on an explicit world state (library availability, saved files, console),
with an uncaught Python exception represented by `Option.none`.
-/

namespace BzrPortal

/-- A token of a document run: static text, a `\x7b\x7bname\x7d\x7d`
placeholder, a `\x7b\x7b#name\x7d\x7d` loop-open marker, or a
`\x7b\x7b/name\x7d\x7d` loop-close marker. -/
inductive Tok where
  | text (s : String)
  | ph (name : String)
  | openL (name : String)
  | closeL (name : String)
deriving DecidableEq, Repr

/-- A body item of a generated document: a paragraph (its run tokens in
order), a heading (python-docx `add_heading`), a table (its cells in
row-major order, each cell a token list), or a page break
(`add_page_break`, which python-docx realises as one extra paragraph). -/
inductive Item where
  | para (toks : List Tok)
  | heading (level : Nat) (toks : List Tok)
  | table (cells : List (List Tok))
  | pageBreak
deriving DecidableEq, Repr

/-- All tokens of a body in document order (table cells in row-major
order, as python-docx stores them). -/
def flattenItems : List Item → List Tok
  | [] => []
  | .para ts :: rest => ts ++ flattenItems rest
  | .heading _ ts :: rest => ts ++ flattenItems rest
  | .table cells :: rest => cells.flatten ++ flattenItems rest
  | .pageBreak :: rest => flattenItems rest

/-- Number of placeholder tokens with the given name. -/
def countPh (name : String) : List Tok → Nat
  | [] => 0
  | .ph n :: rest => (if n = name then 1 else 0) + countPh name rest
  | _ :: rest => countPh name rest

/-- Names of all placeholder tokens, in order. -/
def phNames : List Tok → List String
  | [] => []
  | .ph n :: rest => n :: phNames rest
  | _ :: rest => phNames rest

/-- Number of placeholder tokens with the given name occurring at loop
depth zero (document scope); `d` is the current depth. -/
def docScopeCount (name : String) : List Tok → Nat → Nat
  | [], _ => 0
  | .openL _ :: rest, d => docScopeCount name rest (d + 1)
  | .closeL _ :: rest, d => docScopeCount name rest (d - 1)
  | .ph n :: rest, d =>
      (if n = name ∧ d = 0 then 1 else 0) + docScopeCount name rest d
  | .text _ :: rest, d => docScopeCount name rest d

/-- Loop names that the specification requires to occur only inside a
`positions` loop: the risks loop and the ppe / training / medical-exam
sub-loops (including their `has_*` section guards). -/
def innerLoopNames : List String :=
  ["risks", "has_ppe", "ppe_items", "has_training", "training_requirements",
   "has_medical", "medical_exams"]

/-- Stack-based loop-marker checker: every close matches the innermost
open, every open is eventually closed, and every loop listed in
`innerLoopNames` opens only while a `positions` loop is open. -/
def loopCheck : List Tok → List String → Bool
  | [], stack => stack.isEmpty
  | .openL n :: rest, stack =>
      (decide (n ∈ innerLoopNames) → stack.contains "positions") &&
        loopCheck rest (n :: stack)
  | .closeL n :: rest, s :: stack => (n = s : Bool) && loopCheck rest stack
  | .closeL _ :: _, [] => false
  | .text _ :: rest, stack => loopCheck rest stack
  | .ph _ :: rest, stack => loopCheck rest stack

/-- A string of `n` underscore characters (Python `'_' * n`). -/
def underscores (n : Nat) : String := String.mk (List.replicate n '_')

/-- Number of body paragraphs, as python-docx's `len(doc.paragraphs)`
counts them: plain paragraphs, headings and the paragraph added by each
page break; paragraphs inside table cells are not part of
`doc.paragraphs`. -/
def countParas : List Item → Nat
  | [] => 0
  | .para _ :: rest => 1 + countParas rest
  | .heading _ _ :: rest => 1 + countParas rest
  | .table _ :: rest => countParas rest
  | .pageBreak :: rest => 1 + countParas rest

/-- Number of body tables (`len(doc.tables)`). -/
def countTables : List Item → Nat
  | [] => 0
  | .table _ :: rest => 1 + countTables rest
  | _ :: rest => countTables rest

/-! ## JSON values and the merge script (`backend/merge_all_results.py`) -/

/-- Parsed JSON values, as produced by Python's `json.load` (objects are
parsed dicts, so their key lists are duplicate-free by construction). -/
inductive Json where
  | null
  | bool (b : Bool)
  | num (n : Int)
  | str (s : String)
  | arr (xs : List Json)
  | obj (fields : List (String × Json))
deriving Repr

/-- Python subscript `value[key]` with a string key: succeeds only on a
dict that has the key (`KeyError` on a missing key, `TypeError` on a
list or any other value — both modelled as `none`, an uncaught
exception). -/
def pyGetItem (j : Json) (key : String) : Option Json :=
  match j with
  | .obj fields => fields.lookup key
  | _ => none

/-- Python `len(...)`: defined on lists, dicts and strings, a `TypeError`
(modelled as `none`) on anything else. -/
def pyLen : Json → Option Nat
  | .arr xs => some xs.length
  | .obj fields => some fields.length
  | .str s => some s.length
  | _ => none

/-- An observable effect of a script run. -/
inductive Effect where
  | fileRead (path : String)
  | fileWrite (path : String)
  | consoleOut (line : String)
deriving DecidableEq, Repr

/-- Whether an effect writes a file. -/
def Effect.isFileWrite : Effect → Bool
  | .fileWrite _ => true
  | _ => false

/-- The hard-coded input path of `merge_all_results.py` (line 9). -/
def mergePath : String := "sistematizacija-knowledge-base-backup.json"

/-- `claude_positions_count = 18 + 20 + 5 + 15 + 21`
(`merge_all_results.py` line 26). -/
def claude_positions_count : Nat := 18 + 20 + 5 + 15 + 21

/-- `total_estimated = chunk_2_4_5_positions + claude_positions_count`
(`merge_all_results.py` line 27). -/
def total_estimated (chunk_2_4_5_positions : Nat) : Nat :=
  chunk_2_4_5_positions + claude_positions_count

/-- The console lines printed by `merge_all_results.py` (lines 13-37),
as a function of `len(deepseek_positions)`; each `print` call is one
line, with the `\n` that some f-strings end in kept in the string. -/
def mergeReport (chunk_2_4_5_positions : Nat) : List String :=
  [ "✅ DeepSeek rezultati: " ++ toString chunk_2_4_5_positions ++
      " pozicija (chunk 2, 4, 5)\n"
  , "📊 Claude rezultati: ~" ++ toString claude_positions_count ++
      " pozicija (chunk 1, 3, 6, 7, 8)"
  , "📊 Ukupno pozicija: ~" ++ toString (total_estimated chunk_2_4_5_positions) ++
      " od 137\n"
  , "💡 Da završimo merge, potrebno je:"
  , "   1. Sačuvati JSON output iz svakog Claude agenta"
  , "   2. Učitati ih u Python i kombinovati sa DeepSeek rezultatima"
  , "   3. Sortirati po positionNumber"
  , "   4. Proveriti duplikate"
  , "   5. Sačuvati finalnu bazu znanja\n" ]

/-- A run of `merge_all_results.py` on the parsed content of its input
file: read the file, take `deepseek_data['positions']`, take its `len`,
print the report. `none` is an uncaught exception; the trace holds the
file read and the console output, in order. The script opens its input
read-only and never writes a file. -/
def mergeScriptRun (fileContent : Json) : Option (List Effect) :=
  match pyGetItem fileContent "positions" with
  | none => none
  | some deepseek_positions =>
    match pyLen deepseek_positions with
    | none => none
    | some n => some (.fileRead mergePath :: (mergeReport n).map .consoleOut)

/-! ## Document body of `create_template.py` (module top level, lines 13-391) -/

/-- Items of `createBody`, part 1. -/
def createBodyPart1 : List Item :=
  [ .para [.text "АКТ О ПРОЦЕНИ РИЗИКА"]
  , .para []
  , .para [.ph "company.name"]
  , .para []
  , .para [.ph "company.address"]
  , .pageBreak
  , .heading 1 [.text "1. УВОД"]
  , .para [.text ("Овај Акт о процени ризика сачињен је у складу са Законом о безбедности и здрављу на раду " ++
      "(„Службени гласник РС\", бр. 101/2005, 91/2015 и 113/2017) и Правилником о превентивним мерама " ++
      "за безбедан и здрав рад при излагању ризицима услед појаве штетности у радној околини " ++
      "(„Службени гласник РС\", бр. 5/2018).")]
  , .para [.text ("Циљ процене ризика је идентификација опасности, процена ризика по безбедност и здравље запослених, " ++
      "утврђивање мера за отклањање ризика или њихово свођење на прихватљив ниво.")]
  , .heading 1 [.text "2. ПОДАЦИ О ПОСЛОДАВЦУ"]
  , .table
      [ [.text "Назив:"], [.ph "company.name"]
      , [.text "Адреса:"], [.ph "company.address"]
      , [.text "ПИБ:"], [.ph "company.pib"]
      , [.text "Матични број:"], [.ph "company.registration_number"]
      , [.text "Шифра делатности:"], [.ph "company.activity_code"]
      , [.text "Директор:"], [.ph "company.director"]
      , [.text "Одговорно лице за БЗР:"], [.ph "company.bzr_responsible_person"] ]
  , .pageBreak
  , .heading 1 [.text "3. СИСТЕМАТИЗАЦИЈА РАДНИХ МЕСТА"]
  , .para [.text "Табеларни преглед свих радних места:"]
  , .para []
  , .para [.openL "positions"]
  , .heading 2 [.text "Радно место: ", .ph "position_name"]
  , .table
      [ [.text "Шифра:"], [.ph "position_code"]
      , [.text "Организациона јединица:"], [.ph "department"]
      , [.text "Потребна стручна спрема:"], [.ph "required_education"]
      , [.text "Број извршилаца (М/Ж):"], [.ph "employees_male", .text "/", .ph "employees_female"]
      , [.text "Радни сати (дневно):"], [.ph "work_hours_daily"]
      , [.text "Опис послова:"], [.ph "job_description"]
      , [.text "Радни простор:"], [.ph "workspace"] ]
  , .para []
  , .para [.closeL "positions"]
  , .pageBreak
  , .heading 1 [.text "4. ПРОЦЕНА РИЗИКА ПО РАДНИМ МЕСТИМА"]
  , .para [.text ("Процена ризика спроведена је применом методологије Е × П × Ф:\n\n" ++
      "• Е (Ефекат) - озбиљност последице (1-6)\n" ++
      "• П (Вероватноћа) - вероватноћа настанка штетног догађаја (1-6)\n" ++
      "• Ф (Фреквенција) - учесталост излагања опасности (1-6)\n" ++
      "• Ri (Иницијални ризик) = Е × П × Ф (пре примене мера)\n" ++
      "• R (Резидуални ризик) = Е × П × Ф (након примене мера)")]
  , .para []
  , .para [.openL "positions"] ]

/-- Items of `createBody`, part 2. -/
def createBodyPart2 : List Item :=
  [ .heading 2 [.text "Радно место: ", .ph "position_name"]
  , .para [.openL "risks"]
  , .table
      [ [.text "Опасност:"], [.ph "hazard.hazard_code", .text " - ", .ph "hazard.hazard_name_sr"]
      , [.text ""], [.text ""]
      , [.text "ИНИЦИЈАЛНИ РИЗИК:"], [.text ""]
      , [.text "  Е (иницијални):"], [.ph "initial_e"]
      , [.text "  П (иницијална):"], [.ph "initial_p"]
      , [.text "  Ф (иницијална):"], [.ph "initial_f"]
      , [.text "  Ri = Е × П × Ф:"], [.ph "initial_ri"]
      , [.text ""], [.text ""]
      , [.text "Корективне мере:"], [.ph "corrective_measures"]
      , [.text ""], [.text ""]
      , [.text "РЕЗИДУАЛНИ РИЗИК:"], [.text ""]
      , [.text "  Е (резидуални):"], [.ph "residual_e"]
      , [.text "  П (резидуална):"], [.ph "residual_p"]
      , [.text "  Ф (резидуална):"], [.ph "residual_f"]
      , [.text "  R = Е × П × Ф:"], [.ph "residual_r"]
      , [.text "Одговорно лице:"], [.ph "responsible_person"] ]
  , .para []
  , .para [.closeL "risks"]
  , .para [.closeL "positions"]
  , .pageBreak
  , .heading 1 [.text "5. ЗБИРНИ ПРИКАЗ ПРОЦЕНЕ РИЗИКА"]
  , .para [.text "Табеларни преглед свих процењених ризика:"]
  , .table
      [ [.text "Радно место"], [.text "Опасност"], [.text "Ri"], [.text "R"], [.text "Ниво ризика"] ]
  , .para []
  , .para [.openL "summary_risks"]
  , .para [.ph "position_name", .text " | ", .ph "hazard_name", .text " | ", .ph "initial_ri",
      .text " | ", .ph "residual_r", .text " | ", .ph "risk_level"]
  , .para [.closeL "summary_risks"]
  , .pageBreak
  , .heading 1 [.text "6. ЛИЧНА ЗАШТИТНА ОПРЕМА"]
  , .para [.text "Утврђене потребе за личном заштитном опремом:"]
  , .para [.openL "positions"]
  , .para [.openL "has_ppe"]
  , .heading 3 [.text "Радно место: ", .ph "position_name"]
  , .para [.openL "ppe_items"]
  , .para [.text "• ", .ph "ppe_type", .text " (", .ph "ppe_standard", .text ") - ",
      .ph "quantity", .text " ком."]
  , .para [.closeL "ppe_items"]
  , .para [.closeL "has_ppe"]
  , .para [.closeL "positions"] ]

/-- Items of `createBody`, part 3. -/
def createBodyPart3 : List Item :=
  [ .pageBreak
  , .heading 1 [.text "7. ОБУКА ЗАПОСЛЕНИХ"]
  , .para [.text "Утврђени захтеви за обуком запослених:"]
  , .para [.openL "positions"]
  , .para [.openL "has_training"]
  , .heading 3 [.text "Радно место: ", .ph "position_name"]
  , .para [.openL "training_requirements"]
  , .para [.text "• ", .ph "training_type", .text " - фреквенција: ", .ph "frequency_months",
      .text " месеци, трајање: ", .ph "duration_hours", .text "h"]
  , .para [.closeL "training_requirements"]
  , .para [.closeL "has_training"]
  , .para [.closeL "positions"]
  , .pageBreak
  , .heading 1 [.text "8. ЛЕКАРСКИ ПРЕГЛЕДИ"]
  , .para [.text "Утврђени захтеви за лекарским прегледима:"]
  , .para [.openL "positions"]
  , .para [.openL "has_medical"]
  , .heading 3 [.text "Радно место: ", .ph "position_name"]
  , .para [.openL "medical_exams"]
  , .para [.text "• ", .ph "exam_type", .text " - фреквенција: ", .ph "frequency_months",
      .text " месеци, обим: ", .ph "exam_scope"]
  , .para [.closeL "medical_exams"]
  , .para [.closeL "has_medical"]
  , .para [.closeL "positions"]
  , .pageBreak
  , .heading 1 [.text "9. ЗАКЉУЧАК"]
  , .para [.text ("Овај Акт о процени ризика обухвата све идентификоване опасности на радним местима " ++
      "послодавца "), .ph "company.name", .text (". Спроведеном проценом ризика утврђене су мере за безбедан и " ++
      "здрав рад, које је послодавац дужан да спроведе и континуирано прати њихову ефикасност.\n\n" ++
      "Ревизија Акта о процени ризика вршиће се периодично (минимум једном годишње), као и " ++
      "приликом значајних промена у технологији рада, организацији рада или након повреда на раду.")] ]

/-- Items of `createBody`, part 4. -/
def createBodyPart4 : List Item :=
  [ .para []
  , .para []
  , .heading 1 [.text "10. ПОТПИСИ"]
  , .para [.text "Овај Акт о процени ризика сачинио је:"]
  , .para []
  , .table
      [ [.text "Састављач акта:"], [.ph "company.bzr_responsible_person"]
      , [.text "Потпис:"], [.text (underscores 40)]
      , [.text "Датум израде:"], [.ph "generated_date"]
      , [.text "Директор:"], [.ph "company.director"] ]
  , .para []
  , .para []
  , .para [.text "Напомена: Овај документ је генерисан аутоматски помоћу BZR Portal платформе."] ]

/-- The body built by `create_template.py`, item by item in execution
order: title page, introduction, employer table, position
systematization loop, risk-assessment loop, summary, PPE / training /
medical-exam sections, conclusion and signatures. -/
def createBody : List Item :=
  createBodyPart1 ++ createBodyPart2 ++ createBodyPart3 ++ createBodyPart4
/-- Hard-coded output path of `create_template.py` (line 390). -/
def createPath : String := "backend/templates/Akt_Procena_Rizika_Template.docx"

/-- Console lines printed by `create_template.py` after saving
(lines 393-400). -/
def createPrints : List String :=
  [ "Template successfully created: " ++ createPath
  , "Document contains:"
  , "   - " ++ toString (countParas createBody) ++ " paragraphs"
  , "   - " ++ toString (countTables createBody) ++ " tables"
  , "   - Mustache placeholders for dynamic data"
  , "   - Serbian Cyrillic font (Times New Roman)"
  , "   - All FR-034 to FR-042 sections included"
  , "\nT084 COMPLETED!" ]

/-! ## Document body of `backend/scripts/generate-docx-template.py`
(`create_template()`, lines 21-371) -/

/-- Items of `docxBody`, part 1. -/
def docxBodyPart1 : List Item :=
  [ .para [.text "РЕПУБЛИКА СРБИЈА"]
  , .para []
  , .para [.text "АКТ О ПРОЦЕНИ РИЗИКА"]
  , .para []
  , .para [.ph "company.name", .text "\n", .ph "company.address", .text ", ", .ph "company.city",
      .text "\n", .text "ПИБ: ", .ph "company.pib"]
  , .para []
  , .para []
  , .para [.text "Датум израде: ", .ph "metadata.generatedDate", .text "\n",
      .text "Важи до: ", .ph "metadata.validUntil"]
  , .pageBreak
  , .heading 1 [.text "1. УВОД"]
  , .para [.text "Овај Акт о процени ризика израђен је у складу са:"]
  , .para [.text "• Законом о безбедности и здрављу на раду („Сл. гласник РС\", бр. 101/2005, 91/2015 и 113/2017)"]
  , .para [.text "• Правилником о начину и поступку процене ризика на радном месту и у радној околини („Сл. гласник РС\", бр. 5/2018)"]
  , .para []
  , .para [.text "Процена ризика обављена је за предузеће ", .ph "company.name",
      .text (" коришћењем Е×П×Ф методологије (Изложеност × Вероватноћа × Учесталост). " ++
        "Циљ процене ризика је идентификација опасности и штетности на радним местима, " ++
        "процена нивоа ризика и утврђивање мера за њихово отклањање или смањење.")]
  , .para []
  , .para [.text "Формула за израчунавање нивоа ризика:"]
  , .para [.text "Р = Е × П × Ф"]
  , .para []
  , .para [.text ("Категорије ризика:\n" ++
      "• Низак ниво ризика (Р ≤ 36)\n" ++
      "• Средњи ниво ризика (36 < Р ≤ 70)\n" ++
      "• Висок ниво ризика (Р > 70)")]
  , .pageBreak
  , .heading 1 [.text "2. ПОДАЦИ О ПОСЛОДАВЦУ"]
  , .para [.text "Пун назив: ", .ph "company.name"]
  , .para [.text "ПИБ: ", .ph "company.pib"]
  , .para [.text "Матични број: ", .ph "company.maticniBroj"] ]

/-- Items of `docxBody`, part 2. -/
def docxBodyPart2 : List Item :=
  [ .para [.text "Адреса седишта: ", .ph "company.address", .text ", ", .ph "company.city"]
  , .para [.text "Шифра делатности: ", .ph "company.activityCode"]
  , .para [.text "Опис делатности: ", .ph "company.activityDescription"]
  , .para [.text "Директор: ", .ph "company.director"]
  , .para [.text "Лице одговорно за БЗР: ", .ph "company.bzrResponsiblePerson"]
  , .para [.text "Укупан број запослених: ", .ph "company.employeeCount"]
  , .pageBreak
  , .heading 1 [.text "3. ОРГАНИЗАЦИОНА СТРУКТУРА"]
  , .para [.text "Предузеће ", .ph "company.name", .text " запошљава укупно ",
      .ph "summary.totalPositions", .text " радника на ", .ph "summary.totalPositions",
      .text " радних места."]
  , .pageBreak
  , .heading 1 [.text "4. СИСТЕМАТИЗАЦИЈА РАДНИХ МЕСТА"]
  , .para [.openL "positions"]
  , .para []
  , .para [.text "4.", .ph "@index", .text ". ", .ph "positionName"]
  , .para [.text "   • Организациона јединица: ", .ph "department"]
  , .para [.text "   • Број извршилаца: ", .ph "totalCount", .text " (М: ", .ph "maleCount",
      .text ", Ж: ", .ph "femaleCount", .text ")"]
  , .para [.text "   • Захтевана школска спрема: ", .ph "requiredEducation"]
  , .para [.text "   • Потребно искуство: ", .ph "requiredExperience"]
  , .para [.text "   • Опис послова: ", .ph "workDescription"]
  , .para [.closeL "positions"]
  , .pageBreak
  , .heading 1 [.text "5. ПРОЦЕНА РИЗИКА ПО РАДНИМ МЕСТИМА"]
  , .para [.openL "positions"]
  , .para []
  , .para [.text "5.", .ph "@index", .text ". Радно место: ", .ph "positionName"] ]

/-- Items of `docxBody`, part 3. -/
def docxBodyPart3 : List Item :=
  [ .para []
  , .table
      [ [.text "Опасност/Штетност"], [.text "Еи"], [.text "Пи"], [.text "Фи"], [.text "Ри"],
        [.text "Мере превенције"], [.text "Е"], [.text "П"], [.text "Ф"], [.text "Р"], [.text "Ниво"]
      , [.ph "hazardName"], [.ph "ei"], [.ph "pi"], [.ph "fi"], [.ph "ri"],
        [.ph "correctiveMeasures"], [.ph "e"], [.ph "p"], [.ph "f"], [.ph "r"], [.ph "riskLevel"] ]
  , .para [.openL "risks"]
  , .para [.closeL "risks"]
  , .para []
  , .para [.text "Напомена: ", .text "Ниво ризика - Низак (Р ≤ 36), Средњи (36 < Р ≤ 70), Висок (Р > 70)"]
  , .para [.closeL "positions"]
  , .pageBreak
  , .heading 1 [.text "6. ЗБОРНИ ПРИКАЗ ПРОЦЕНЕ"]
  , .para [.text "Укупно радних места: ", .ph "summary.totalPositions"]
  , .para [.text "Укупно процењених опасности: ", .ph "summary.totalRisks"]
  , .para []
  , .para [.text "Расподела ризика:"]
  , .para [.text "• Низак ниво (Р ≤ 36): ", .ph "summary.lowRiskCount"]
  , .para [.text "• Средњи ниво (36 < Р ≤ 70): ", .ph "summary.mediumRiskCount"]
  , .para [.text "• Висок ниво (Р > 70): ", .ph "summary.highRiskCount"]
  , .para []
  , .para [.openL "summary.highRiskPositions"]
  , .para [.text "⚠️ Радна места са високим ризиком: ", .ph "summary.highRiskPositions"]
  , .para [.closeL "summary.highRiskPositions"]
  , .pageBreak
  , .heading 1 [.text "7. ПРИЛОЗИ"]
  , .para [.text ("Прилози који прате овај Акт о процени ризика:\n" ++
      "• Списак потребних средстава и опреме за личну заштиту\n" ++
      "• План обуке запослених за безбедан рад\n" ++
      "• Списак лекарских прегледа")]
  , .pageBreak
  , .heading 1 [.text "8. ВЕРИФИКАЦИЈА И ПОТПИСИ"] ]

/-- Items of `docxBody`, part 4. -/
def docxBodyPart4 : List Item :=
  [ .para [.text "Овај Акт о процени ризика верификован је и ступа на снагу даном ",
      .ph "metadata.generatedDate", .text "."]
  , .para [.text "Важи ", .ph "metadata.validityPeriod",
      .text " од дана доношења (у складу са чланом 32 Правилника)."]
  , .para []
  , .para []
  , .para []
  , .para [.text (underscores 30)]
  , .para [.ph "company.director"]
  , .para [.text "Директор"]
  , .para []
  , .para []
  , .para [.text (underscores 30)]
  , .para [.ph "company.bzrResponsiblePerson"]
  , .para [.text "Лице одговорно за безбедност и здравље на раду"]
  , .para []
  , .para []
  , .para [.text "Документ генерисан аутоматски системом BZR Portal"] ]

/-- The body built by `create_template()` in
`generate-docx-template.py`, item by item in execution order. Note that
the risk-assessment table (with its placeholder data row) is added to
the body *before* the `risks` loop-open paragraph, because the script
adds the table first and only fills its second row after adding the
loop-open paragraph; cell mutation does not move the table. -/
def docxBody : List Item :=
  docxBodyPart1 ++ docxBodyPart2 ++ docxBodyPart3 ++ docxBodyPart4
/-- Hard-coded output path of `generate-docx-template.py` (line 365). -/
def docxPath : String := "templates/akt-procena-rizika-template.docx"

/-- `len(doc.sections)` for the generated document: `Document()` starts
with a single section and the script adds none. -/
def docxSectionCount : Nat := 1

/-- Console lines printed by `create_template()` after saving
(lines 367-371). -/
def docxPrints : List String :=
  [ "[OK] Template created: " ++ docxPath
  , "[INFO] Total pages: ~" ++ toString docxSectionCount ++ " sections"
  , "[INFO] Ready for docx-templates library"
  , ""
  , "Next: Test with npm test -- document.service.test.ts" ]

/-- Console lines printed by the catch-all handler of
`generate-docx-template.py` (lines 376-380): the error message and the
pip-install remediation hint. -/
def docxErrorLines (errMsg : String) : List String :=
  [ "[ERROR] Error: " ++ errMsg
  , ""
  , "Make sure python-docx is installed:"
  , "  pip install python-docx" ]

/-! ## Document body of `backend/scripts/generate-template.py`
(`generate_template()`, lines 87-333) -/

/-- The 60-character box-drawing separator line used around each risk
entry (`generate-template.py` lines 185 and 240). -/
def boxLine : String := String.mk (List.replicate 60 '━')

/-- Items of `gtBody`, part 1. -/
def gtBodyPart1 : List Item :=
  [ .para [.text "АКТ О ПРОЦЕНИ РИЗИКА"]
  , .para []
  , .para [.text "Предузеће: ", .ph "company.name"]
  , .para [.text "ПИБ: ", .ph "company.pib"]
  , .para [.text "Адреса: ", .ph "company.address"]
  , .para []
  , .para [.text "Датум израде: ", .ph "metadata.generatedDate"]
  , .para [.text "Важност акта: ", .ph "metadata.validityPeriod"]
  , .pageBreak
  , .para [.text "I. ОПШТИ ПОДАЦИ О ПОСЛОДАВЦУ"]
  , .para []
  , .para [.text "Назив предузећа: ", .ph "company.name"]
  , .para [.text "ПИБ: ", .ph "company.pib"]
  , .para [.text "Адреса седишта: ", .ph "company.address"]
  , .para [.text "Град: ", .ph "company.city"]
  , .para [.text "Шифра делатности: ", .ph "company.activityCode"]
  , .para [.text "Опис делатности: ", .ph "company.activityDescription"]
  , .para [.text "Број запослених: ", .ph "company.employeeCount"]
  , .para []
  , .para [.text "Директор: ", .ph "company.director"]
  , .para [.text "Лице задужено за БЗР: ", .ph "company.bzrResponsiblePerson"]
  , .pageBreak
  , .para [.text "II. СИСТЕМАТИЗАЦИЈА РАДНИХ МЕСТА"]
  , .para []
  , .para [.openL "positions"] ]

/-- Items of `gtBody`, part 2. -/
def gtBodyPart2 : List Item :=
  [ .para []
  , .para [.text "Радно место: ", .ph "positionName"]
  , .para [.text "Организациона јединица: ", .ph "department"]
  , .para [.text "Број запослених: ", .text "Укупно: ", .ph "totalCount",
      .text ", Мушкарци: ", .ph "maleCount", .text ", Жене: ", .ph "femaleCount"]
  , .para [.text "Потребна стручна спрема: ", .ph "requiredEducation"]
  , .para [.text "Радно искуство: ", .ph "requiredExperience"]
  , .para []
  , .para [.closeL "positions"]
  , .pageBreak
  , .para [.text "III. ПРОЦЕНА РИЗИКА ПО РАДНИМ МЕСТИМА"]
  , .para []
  , .para [.openL "positions"]
  , .para [.text "Радно место: ", .ph "positionName"]
  , .para []
  , .para [.text "Методологија процене: ", .text "E (Последице) × П (Вероватноћа) × Ф (Учесталост)"]
  , .para []
  , .para [.openL "risks"]
  , .para [.text boxLine]
  , .para [.text "Опасност: ", .ph "hazardName", .text " (Код: ", .ph "hazardCode", .text ")"]
  , .para [.text "Категорија: ", .ph "hazardCategory"]
  , .para []
  , .para [.text "ПОЧЕТНА ПРОЦЕНА (пре корективних мера):"]
  , .para [.text "E (Последице): ", .ph "ei", .text ", П (Вероватноћа): ", .ph "pi",
      .text ", Ф (Учесталост): ", .ph "fi"]
  , .para [.text "Ri (Почетни ризик): ", .ph "ri", .text " ", .ph "initialRiskLevel"]
  , .para [] ]

/-- Items of `gtBody`, part 3. -/
def gtBodyPart3 : List Item :=
  [ .para [.text "КОРЕКТИВНЕ МЕРЕ:"]
  , .para [.ph "correctiveMeasures"]
  , .para []
  , .para [.text "РЕЗИДУАЛНА ПРОЦЕНА (након корективних мера):"]
  , .para [.text "E (Последице): ", .ph "e", .text ", П (Вероватноћа): ", .ph "p",
      .text ", Ф (Учесталост): ", .ph "f"]
  , .para [.text "R (Резидуални ризик): ", .ph "r", .text " ", .ph "riskLevel"]
  , .para []
  , .para [.openL "isHighRisk"]
  , .para [.text "⚠️ ВИСОК РИЗИК - Потребна хитна интервенција!"]
  , .para [.closeL "isHighRisk"]
  , .para [.text boxLine]
  , .para []
  , .para [.closeL "risks"]
  , .para []
  , .para [.closeL "positions"]
  , .pageBreak
  , .para [.text "IV. ЗБИРНИ ПРЕГЛЕД"]
  , .para []
  , .para [.text "На основу спроведене процене ризика утврђено је следеће:"]
  , .para []
  , .para [.text "Укупан број радних места: ", .ph "summary.totalPositions"]
  , .para [.text "Укупан број идентификованих ризика: ", .ph "summary.totalRisks"]
  , .para [.text "Радна места са високим ризиком: ", .ph "summary.highRiskPositions"]
  , .para []
  , .para [.text "Распоред ризика по нивоима:"] ]

/-- Items of `gtBody`, part 4. -/
def gtBodyPart4 : List Item :=
  [ .para [.text "Низак ризик (≤36): ", .ph "summary.lowRiskCount"]
  , .para [.text "Средњи ризик (37-70): ", .ph "summary.mediumRiskCount"]
  , .para [.text "Висок ризик (>70): ", .ph "summary.highRiskCount"]
  , .para []
  , .para [.text ("Све идентификоване опасности су проценене према методологији E×П×Ф " ++
      "(Последице × Вероватноћа × Учесталост) у складу са Законом о безбедности " ++
      "и здрављу на раду (Сл. гласник РС, бр. 101/2005...91/2015).")]
  , .pageBreak
  , .para [.text "V. ПОТПИСНИЦИ"]
  , .para []
  , .para []
  , .para [.text "Директор: ", .ph "company.director"]
  , .para []
  , .para [.text (underscores 40), .text "  Потпис"]
  , .para []
  , .para []
  , .para [.text "Лице задужено за БЗР: ", .ph "company.bzrResponsiblePerson"]
  , .para []
  , .para [.text (underscores 40), .text "  Потпис"]
  , .para []
  , .para []
  , .para [.text "Датум: ", .ph "metadata.generatedDate"]
  , .para []
  , .para []
  , .para [.text (underscores 40)] ]

/-- The body built by `generate_template()` in `generate-template.py`,
item by item in execution order. The helper `create_risk_table` (a
13-column risk table) is defined in the script but never called, so no
table occurs in the body; headings are plain paragraphs made by
`add_header_text`. -/
def gtBody : List Item :=
  gtBodyPart1 ++ gtBodyPart2 ++ gtBodyPart3 ++ gtBodyPart4
/-- Hard-coded output path of `generate-template.py` (line 329). -/
def gtPath : String := "../templates/akt-procena-rizika-template.docx"

/-- Console lines printed by `generate_template()` after saving
(lines 331-333). -/
def gtPrints : List String :=
  [ "✅ Template generated successfully: " ++ gtPath
  , "   File contains " ++ toString (countParas gtBody) ++ " paragraphs"
  , "   Ready for docx-templates library with Mustache syntax" ]

/-! ## World state and script runs -/

/-- The state a script run acts on: whether the `docx` library imports
and works (`libOk`), the text of the exception raised when it does not
(`errMsg`), the files saved so far (path and document body) and the
console lines printed so far. -/
structure World where
  libOk : Bool
  errMsg : String
  files : List (String × List Item)
  console : List String
deriving Repr

/-- A run of `create_template.py`: module-level code with no exception
handler, so when the docx library fails the exception propagates
(`none`); otherwise the body is built, saved once to the hard-coded
path, and the report is printed. -/
def createTemplateRun (w : World) : Option World :=
  if w.libOk then
    some { w with files := w.files ++ [(createPath, createBody)],
                  console := w.console ++ createPrints }
  else none

/-- A run of `generate-template.py`'s `__main__` block (line 336): it
calls `generate_template()` with no exception handler, so a docx-library
failure propagates (`none`). -/
def generateTemplateMain (w : World) : Option World :=
  if w.libOk then
    some { w with files := w.files ++ [(gtPath, gtBody)],
                  console := w.console ++ gtPrints }
  else
    none

/-- A run of `generate-docx-template.py`'s `__main__` block
(lines 373-380): `create_template()` wrapped in `try/except Exception`,
so the run always completes; on failure it prints the error and the
pip-install hint instead of saving anything. -/
def generateDocxMain (w : World) : World :=
  if w.libOk then
    { w with files := w.files ++ [(docxPath, docxBody)],
             console := w.console ++ docxPrints }
  else
    { w with console := w.console ++ docxErrorLines w.errMsg }

/-- The document bodies a run added to the file system: the files of
the post-state beyond those of the pre-state. -/
def savedBodies (w w' : World) : List (List Item) :=
  (w'.files.drop w.files.length).map Prod.snd

/-! ## Risk-level classification constants restated in the templates -/

/-- The three risk levels. -/
inductive RiskLevel where
  | low
  | medium
  | high
deriving DecidableEq, Repr

/-- The classification fixed by the specification: low for scores ≤ 36,
medium for 37-70, high for > 70. -/
def specRiskLevel (r : Nat) : RiskLevel :=
  if r ≤ 36 then .low else if r ≤ 70 then .medium else .high

/-- Boundary constants of a restatement written in the strict form
`Р ≤ lowMax` / `lowMax < Р ≤ medMax` / `Р > medMax` (with the same
constant appearing on both sides of each boundary, as in the source
text). -/
structure StrictBounds where
  lowMax : Nat
  medMax : Nat
deriving DecidableEq, Repr

/-- The classification a strict-form restatement denotes: the level
whose stated range contains `r`, if any. -/
def StrictBounds.classify (b : StrictBounds) (r : Nat) : Option RiskLevel :=
  if r ≤ b.lowMax then some .low
  else if b.lowMax < r ∧ r ≤ b.medMax then some .medium
  else if b.medMax < r then some .high
  else none

/-- Boundary constants of a restatement written in the range form
`≤ lowMax` / `medLo-medHi` / `> highMin`. -/
structure RangeBounds where
  lowMax : Nat
  medLo : Nat
  medHi : Nat
  highMin : Nat
deriving DecidableEq, Repr

/-- The classification a range-form restatement denotes: the level
whose stated range contains `r`, if any. -/
def RangeBounds.classify (b : RangeBounds) (r : Nat) : Option RiskLevel :=
  if r ≤ b.lowMax then some .low
  else if b.medLo ≤ r ∧ r ≤ b.medHi then some .medium
  else if b.highMin < r then some .high
  else none

/-- Boundary constants restated in the introduction of
`generate-docx-template.py` (lines 117-122: `Р ≤ 36`, `36 < Р ≤ 70`,
`Р > 70`). -/
def docxIntroBounds : StrictBounds := ⟨36, 70⟩

/-- Boundary constants restated in the risk-table note of
`generate-docx-template.py` (line 255: `Р ≤ 36`, `36 < Р ≤ 70`,
`Р > 70`). -/
def docxNoteBounds : StrictBounds := ⟨36, 70⟩

/-- Boundary constants restated in the summary of
`generate-docx-template.py` (lines 277-279: `Р ≤ 36`, `36 < Р ≤ 70`,
`Р > 70`). -/
def docxSummaryBounds : StrictBounds := ⟨36, 70⟩

/-- Boundary constants restated in the summary of
`generate-template.py` (lines 270-276: `≤36`, `37-70`, `>70`). -/
def gtSummaryBounds : RangeBounds := ⟨36, 37, 70, 70⟩

/-- The token stream of `create_template.py`'s body. -/
def createToks : List Tok := flattenItems createBody

/-- The token stream of `generate-docx-template.py`'s body. -/
def docxToks : List Tok := flattenItems docxBody

/-- The token stream of `generate-template.py`'s body. -/
def gtToks : List Tok := flattenItems gtBody

/-- Whether every name in the list occurs as a placeholder token in the
stream. -/
def allPresent (names : List String) (toks : List Tok) : Bool :=
  names.all (fun n => countPh n toks != 0)

/-! ## Helper lemmas -/

/-- Every completed run of the merge script writes no file: its trace is
the input-file read followed by console output only. -/
theorem mergeRun_no_fileWrite :
    ∀ (j : Json) (tr : List Effect), mergeScriptRun j = some tr →
      tr.filter Effect.isFileWrite = [] := by
  intro j tr h
  cases hg : pyGetItem j "positions" with
  | none => simp [mergeScriptRun, hg] at h
  | some v =>
    cases hn : pyLen v with
    | none => simp [mergeScriptRun, hg, hn] at h
    | some n =>
      simp only [mergeScriptRun, hg, hn, Option.some_inj] at h
      subst h
      rfl

/-- On an input object whose `positions` key holds a list, the merge
script completes and its trace is the file read followed by the report
for the list's length. -/
theorem mergeRun_obj_positions (fields : List (String × Json)) (xs : List Json)
    (h : List.lookup "positions" fields = some (Json.arr xs)) :
    mergeScriptRun (Json.obj fields)
      = some (Effect.fileRead mergePath :: (mergeReport xs.length).map Effect.consoleOut) := by
  simp [mergeScriptRun, pyGetItem, h, pyLen]

/-- The strict-form boundary constants `36` / `70` denote exactly the
specification's classification. -/
theorem strictBounds_36_70_spec (r : Nat) :
    StrictBounds.classify ⟨36, 70⟩ r = some (specRiskLevel r) := by
  simp only [StrictBounds.classify, specRiskLevel]
  split_ifs <;> first | rfl | omega

/-- The range-form boundary constants `36` / `37`-`70` / `70` denote
exactly the specification's classification. -/
theorem rangeBounds_36_37_70_spec (r : Nat) :
    RangeBounds.classify ⟨36, 37, 70, 70⟩ r = some (specRiskLevel r) := by
  simp only [RangeBounds.classify, specRiskLevel]
  split_ifs <;> first | rfl | omega

/-! ## Claims -/

/-- C1 counterexample: when the docx library fails to initialize,
`generate-template.py` (and likewise `create_template.py`) has no
exception handler at all — the run ends in an uncaught exception instead
of a printed message and remediation hint, so it is false that every
template-generator script wraps its top-level generation call in a
catch-all handler. -/
theorem c1_counterexample :
    generateTemplateMain ⟨false, "No module named docx", [], []⟩ = none
    ∧ createTemplateRun ⟨false, "No module named docx", [], []⟩ = none :=
  ⟨rfl, rfl⟩

/-- C1 (amended): only `generate-docx-template.py` wraps its top-level
generation call in a catch-all handler that prints the error and the
pip-install hint when document-library initialization fails;
`create_template.py` and `generate-template.py` let the exception
propagate unhandled, and the merge script likewise has no handler — so
the docx-script handler is still the only error path in the
repository. -/
theorem c1_only_docx_script_catches (w : World) (h : w.libOk = false) :
    generateDocxMain w = { w with console := w.console ++ docxErrorLines w.errMsg }
    ∧ generateTemplateMain w = none
    ∧ createTemplateRun w = none
    ∧ (∀ j : Json, pyGetItem j "positions" = none → mergeScriptRun j = none) := by
  refine ⟨?_, ?_, ?_, ?_⟩
  · simp [generateDocxMain, h]
  · simp [generateTemplateMain, h]
  · simp [createTemplateRun, h]
  · intro j hj
    simp [mergeScriptRun, hj]

/-- C1 witness: the amended statement at a concrete failing world. -/
theorem c1_witness :
    generateDocxMain ⟨false, "No module named docx", [], []⟩
      = { libOk := false, errMsg := "No module named docx", files := [],
          console := docxErrorLines "No module named docx" }
    ∧ generateTemplateMain ⟨false, "No module named docx", [], []⟩ = none
    ∧ createTemplateRun ⟨false, "No module named docx", [], []⟩ = none
    ∧ (∀ j : Json, pyGetItem j "positions" = none → mergeScriptRun j = none) :=
  c1_only_docx_script_catches ⟨false, "No module named docx", [], []⟩ rfl

/-- C2 counterexample: on a JSON file whose top level is a list of
position records the merge script crashes with a `TypeError` (subscript
with a string key on a list) and produces no output at all, so the
claimed input format is not the one the script accepts. -/
theorem c2_counterexample :
    mergeScriptRun (Json.arr []) = none
    ∧ mergeScriptRun
        (Json.arr [Json.obj [("positionName", Json.str "Direktor")]]) = none :=
  ⟨rfl, rfl⟩

/-- C2 (amended): the merge script takes a JSON file whose top level is
an object whose `positions` key holds the list of position records, and
for every completed run its only output is console text: the trace is
the input-file read followed by console lines, with no file written. -/
theorem c2_merge_input_shape_and_console_only (fields : List (String × Json))
    (xs : List Json)
    (h : List.lookup "positions" fields = some (Json.arr xs)) :
    mergeScriptRun (Json.obj fields)
      = some (Effect.fileRead mergePath :: (mergeReport xs.length).map Effect.consoleOut)
    ∧ (∀ (j : Json) (tr : List Effect), mergeScriptRun j = some tr →
        tr.filter Effect.isFileWrite = []) :=
  ⟨mergeRun_obj_positions fields xs h, mergeRun_no_fileWrite⟩

/-- C2 witness: the amended statement at a concrete single-record
input. -/
theorem c2_witness :
    mergeScriptRun (Json.obj [("positions", Json.arr [Json.obj []])])
      = some (Effect.fileRead mergePath :: (mergeReport 1).map Effect.consoleOut)
    ∧ (∀ (j : Json) (tr : List Effect), mergeScriptRun j = some tr →
        tr.filter Effect.isFileWrite = []) :=
  c2_merge_input_shape_and_console_only [("positions", Json.arr [Json.obj []])]
    [Json.obj []] rfl

/-- C3: every restatement of the risk-level boundary constants in the
generated templates — the introduction, the risk-table note and the
summary of `generate-docx-template.py`, and the summary of
`generate-template.py` — denotes exactly the fixed classification
low ≤ 36, medium 37-70, high > 70, and each restatement is present in
the corresponding template body. -/
theorem c3_risk_thresholds_consistent (r : Nat) :
    (docxIntroBounds.classify r = some (specRiskLevel r)
      ∧ docxNoteBounds.classify r = some (specRiskLevel r)
      ∧ docxSummaryBounds.classify r = some (specRiskLevel r)
      ∧ gtSummaryBounds.classify r = some (specRiskLevel r))
    ∧ (Item.para [Tok.text ("Категорије ризика:\n" ++
          "• Низак ниво ризика (Р ≤ 36)\n" ++
          "• Средњи ниво ризика (36 < Р ≤ 70)\n" ++
          "• Висок ниво ризика (Р > 70)")] ∈ docxBody
      ∧ Item.para [Tok.text "Напомена: ",
          Tok.text "Ниво ризика - Низак (Р ≤ 36), Средњи (36 < Р ≤ 70), Висок (Р > 70)"] ∈ docxBody
      ∧ Item.para [Tok.text "• Низак ниво (Р ≤ 36): ", Tok.ph "summary.lowRiskCount"] ∈ docxBody
      ∧ Item.para [Tok.text "• Средњи ниво (36 < Р ≤ 70): ", Tok.ph "summary.mediumRiskCount"] ∈ docxBody
      ∧ Item.para [Tok.text "• Висок ниво (Р > 70): ", Tok.ph "summary.highRiskCount"] ∈ docxBody
      ∧ Item.para [Tok.text "Низак ризик (≤36): ", Tok.ph "summary.lowRiskCount"] ∈ gtBody
      ∧ Item.para [Tok.text "Средњи ризик (37-70): ", Tok.ph "summary.mediumRiskCount"] ∈ gtBody
      ∧ Item.para [Tok.text "Висок ризик (>70): ", Tok.ph "summary.highRiskCount"] ∈ gtBody) := by
  refine ⟨⟨strictBounds_36_70_spec r, strictBounds_36_70_spec r,
    strictBounds_36_70_spec r, rangeBounds_36_37_70_spec r⟩,
    ?_, ?_, ?_, ?_, ?_, ?_, ?_, ?_⟩ <;> decide

/-- C4 counterexample: in the template generated by
`create_template.py` the placeholder for the company name occurs three
times at document scope (not exactly once), and no placeholder at all
exists for the documented company-city field, so the placeholder set
neither covers every documented field nor is once-per-scope. -/
theorem c4_counterexample :
    docScopeCount "company.name" createToks 0 = 3
    ∧ (phNames createToks).contains "company.city" = false :=
  ⟨rfl, rfl⟩

/-- C4 (amended): every generated template includes at least one
placeholder for the core documented Company, Position and Risk fields
(and, in the two backend templates, the Summary aggregates), but the
coverage is not complete — `create_template.py` has no company-city
placeholder — and placeholders do not occur exactly once per scope: the
company-name placeholder occurs three times at document scope in
`create_template.py`, four times in `generate-docx-template.py` and
twice in `generate-template.py`, and the summary-total-positions
placeholder occurs three times at document scope in
`generate-docx-template.py`. -/
theorem c4_placeholder_coverage :
    allPresent ["company.name", "company.pib", "company.address", "company.director",
      "company.bzr_responsible_person", "position_name", "initial_e", "initial_p",
      "initial_f", "initial_ri", "residual_e", "residual_p", "residual_f", "residual_r",
      "corrective_measures", "risk_level"] createToks = true
    ∧ allPresent ["company.name", "company.pib", "company.address", "company.director",
      "company.bzrResponsiblePerson", "positionName", "ei", "pi", "fi", "ri",
      "e", "p", "f", "r", "correctiveMeasures", "riskLevel", "summary.totalPositions",
      "summary.totalRisks", "summary.lowRiskCount", "summary.mediumRiskCount",
      "summary.highRiskCount"] docxToks = true
    ∧ allPresent ["company.name", "company.pib", "company.address", "company.director",
      "company.bzrResponsiblePerson", "positionName", "ei", "pi", "fi", "ri",
      "e", "p", "f", "r", "correctiveMeasures", "riskLevel", "summary.totalPositions",
      "summary.totalRisks", "summary.lowRiskCount", "summary.mediumRiskCount",
      "summary.highRiskCount"] gtToks = true
    ∧ (phNames createToks).contains "company.city" = false
    ∧ docScopeCount "company.name" createToks 0 = 3
    ∧ docScopeCount "company.name" docxToks 0 = 4
    ∧ docScopeCount "company.name" gtToks 0 = 2
    ∧ docScopeCount "summary.totalPositions" docxToks 0 = 3 := by
  refine ⟨?_, ?_, ?_, ?_, ?_, ?_, ?_, ?_⟩ <;> rfl

/-- C5: in each of the three generated templates the loop-open and
loop-close markers are balanced and properly nested (every close matches
the innermost open and every open is closed), and the risks, ppe,
training and medical-exam loops open only inside a `positions` loop. -/
theorem c5_loops_balanced_and_nested :
    loopCheck createToks [] = true
    ∧ loopCheck docxToks [] = true
    ∧ loopCheck gtToks [] = true :=
  ⟨rfl, rfl, rfl⟩

/-- C6: the merge script performs no merge — on any positions list its
entire observable behaviour is the file read plus a printed report that
depends only on the number of records (so no combining, sorting or
deduplication of records can be observed), and no completed run writes
any file. -/
theorem c6_merge_counts_and_prints_only :
    (∀ xs : List Json, mergeScriptRun (Json.obj [("positions", Json.arr xs)])
        = some (Effect.fileRead mergePath :: (mergeReport xs.length).map Effect.consoleOut))
    ∧ (∀ (j : Json) (tr : List Effect), mergeScriptRun j = some tr →
        tr.filter Effect.isFileWrite = []) :=
  ⟨fun _ => rfl, mergeRun_no_fileWrite⟩

/-- C6 witness: the report-only behaviour at a concrete two-record
input. -/
theorem c6_witness :
    mergeScriptRun (Json.obj [("positions", Json.arr [Json.str "a", Json.str "b"])])
      = some (Effect.fileRead mergePath :: (mergeReport 2).map Effect.consoleOut)
    ∧ (Effect.fileRead mergePath :: (mergeReport 2).map Effect.consoleOut).filter
        Effect.isFileWrite = [] :=
  ⟨c6_merge_counts_and_prints_only.1 [Json.str "a", Json.str "b"],
   c6_merge_counts_and_prints_only.2 _ _
     (c6_merge_counts_and_prints_only.1 [Json.str "a", Json.str "b"])⟩

/-- C7: on a working docx library, each template-generator run appends
exactly one file, at its fixed hard-coded path with its fixed body, and
appends its console report, leaving everything else in the world
unchanged. -/
theorem c7_single_fixed_output_file (w : World) (h : w.libOk = true) :
    createTemplateRun w
      = some { w with files := w.files ++ [(createPath, createBody)],
                      console := w.console ++ createPrints }
    ∧ generateTemplateMain w
      = some { w with files := w.files ++ [(gtPath, gtBody)],
                      console := w.console ++ gtPrints }
    ∧ generateDocxMain w
      = { w with files := w.files ++ [(docxPath, docxBody)],
                 console := w.console ++ docxPrints } := by
  refine ⟨?_, ?_, ?_⟩ <;>
    simp [createTemplateRun, generateTemplateMain, generateDocxMain, h]

/-- C7 witness: the single-file outputs from the empty initial world. -/
theorem c7_witness :
    createTemplateRun ⟨true, "", [], []⟩
      = some ⟨true, "", [(createPath, createBody)], createPrints⟩
    ∧ generateTemplateMain ⟨true, "", [], []⟩
      = some ⟨true, "", [(gtPath, gtBody)], gtPrints⟩
    ∧ generateDocxMain ⟨true, "", [], []⟩
      = ⟨true, "", [(docxPath, docxBody)], docxPrints⟩ :=
  c7_single_fixed_output_file ⟨true, "", [], []⟩ rfl

/-- C8: no code in the repository validates the documented data-model
invariants: the merge script's behaviour is identical on any two single
position records whatsoever (so a record violating risk = E×P×F is
indistinguishable from a valid one), and the E×P×F relation appears in
the templates only as static formula text and score placeholder tokens. -/
theorem c8_no_invariant_validation :
    (∀ r r' : Json, mergeScriptRun (Json.obj [("positions", Json.arr [r])])
        = mergeScriptRun (Json.obj [("positions", Json.arr [r'])]))
    ∧ Item.para [Tok.text "Р = Е × П × Ф"] ∈ docxBody
    ∧ Tok.text "  Ri = Е × П × Ф:" ∈ createToks
    ∧ Tok.text "E (Последице) × П (Вероватноћа) × Ф (Учесталост)" ∈ gtToks
    ∧ Tok.ph "initial_ri" ∈ createToks
    ∧ Tok.ph "ri" ∈ docxToks
    ∧ Tok.ph "ri" ∈ gtToks := by
  refine ⟨fun _ _ => rfl, ?_, ?_, ?_, ?_, ?_, ?_⟩ <;> decide

/-- C9: the Claude positions count reported by the merge script is the
fixed constant 79 = 18 + 20 + 5 + 15 + 21 independent of the input, and
on every accepted input the reported estimated total is the length of
the input's positions list plus 79. -/
theorem c9_claude_count_constant :
    claude_positions_count = 79
    ∧ (∀ n : Nat, mergeReport n =
        [ "✅ DeepSeek rezultati: " ++ toString n ++ " pozicija (chunk 2, 4, 5)\n"
        , "📊 Claude rezultati: ~79 pozicija (chunk 1, 3, 6, 7, 8)"
        , "📊 Ukupno pozicija: ~" ++ toString (n + 79) ++ " od 137\n"
        , "💡 Da završimo merge, potrebno je:"
        , "   1. Sačuvati JSON output iz svakog Claude agenta"
        , "   2. Učitati ih u Python i kombinovati sa DeepSeek rezultatima"
        , "   3. Sortirati po positionNumber"
        , "   4. Proveriti duplikate"
        , "   5. Sačuvati finalnu bazu znanja\n" ])
    ∧ (∀ (fields : List (String × Json)) (xs : List Json),
        List.lookup "positions" fields = some (Json.arr xs) →
        mergeScriptRun (Json.obj fields)
          = some (Effect.fileRead mergePath :: (mergeReport xs.length).map Effect.consoleOut)) :=
  ⟨rfl, fun _ => rfl, mergeRun_obj_positions⟩

/-- C9 witness: the reported totals at a concrete one-record input. -/
theorem c9_witness :
    mergeScriptRun (Json.obj [("positions", Json.arr [Json.null])])
      = some (Effect.fileRead mergePath :: (mergeReport 1).map Effect.consoleOut) :=
  c9_claude_count_constant.2.2 [("positions", Json.arr [Json.null])] [Json.null] rfl

/-- C10: each template-generator script is deterministic — it consumes
no input data, so two runs from any two (working) worlds save documents
with identical body content. -/
theorem c10_generator_determinism (w1 w2 : World)
    (h1 : w1.libOk = true) (h2 : w2.libOk = true) :
    (createTemplateRun w1).map (savedBodies w1) = (createTemplateRun w2).map (savedBodies w2)
    ∧ (generateTemplateMain w1).map (savedBodies w1)
      = (generateTemplateMain w2).map (savedBodies w2)
    ∧ savedBodies w1 (generateDocxMain w1) = savedBodies w2 (generateDocxMain w2) := by
  refine ⟨?_, ?_, ?_⟩ <;>
    simp [createTemplateRun, generateTemplateMain, generateDocxMain, h1, h2, savedBodies,
      List.drop_left]

/-- C10 witness: the saved bodies agree across two different concrete
worlds. -/
theorem c10_witness :
    (createTemplateRun ⟨true, "", [], []⟩).map (savedBodies ⟨true, "", [], []⟩)
      = (createTemplateRun ⟨true, "x", [(mergePath, [])], ["y"]⟩).map
          (savedBodies ⟨true, "x", [(mergePath, [])], ["y"]⟩)
    ∧ (generateTemplateMain ⟨true, "", [], []⟩).map (savedBodies ⟨true, "", [], []⟩)
      = (generateTemplateMain ⟨true, "x", [(mergePath, [])], ["y"]⟩).map
          (savedBodies ⟨true, "x", [(mergePath, [])], ["y"]⟩)
    ∧ savedBodies ⟨true, "", [], []⟩ (generateDocxMain ⟨true, "", [], []⟩)
      = savedBodies ⟨true, "x", [(mergePath, [])], ["y"]⟩
          (generateDocxMain ⟨true, "x", [(mergePath, [])], ["y"]⟩) :=
  c10_generator_determinism ⟨true, "", [], []⟩ ⟨true, "x", [(mergePath, [])], ["y"]⟩ rfl rfl

end BzrPortal
